import Mathlib

/-!
Shallow embedding of the canary client library (Rust, `src/backend/src/`).

Modelling conventions:
* `u64` values are natural numbers; where the Rust code can overflow or
  underflow a `u64`, the arithmetic is performed explicitly modulo `2 ^ 64`
  (release-profile wrapping semantics) via `wrap64` / `add64` / `sub64`.
* 32-byte identifiers (`ObjectID`, `SuiAddress`) are lists of byte values,
  so that byte-level claims (identity transforms, lengths) are visible.
* The remote ledger RPC endpoint is a structure of functions (`SuiClient`):
  each network call of the Rust code corresponds to one field.  A network
  failure is `Except.error msg`; a successful RPC answer is `Except.ok`.
* Code that can panic (via `unwrap` or an explicit panic) is embedded in the
  `Outcome` type, which has a third, `panicked`, result.
* Byte strings produced by `String::as_bytes` are modelled as `List Nat`.
-/

/-- Wrapping `u64` semantics: reduce modulo `2 ^ 64`. -/
def wrap64 (n : Nat) : Nat := n % 2 ^ 64

/-- Wrapping `u64` addition, as in a Rust release build. -/
def add64 (a b : Nat) : Nat := wrap64 (a + b)

/-- Wrapping `u64` subtraction, as in a Rust release build. -/
def sub64 (a b : Nat) : Nat := wrap64 (wrap64 a + (2 ^ 64 - wrap64 b))

/-- A 32-byte object identifier, kept as its byte list. -/
abbrev ObjectID := List Nat

/-- A 32-byte account address, kept as its byte list. -/
abbrev SuiAddress := List Nat

/-- Helper to build a concrete 32-byte identifier whose last byte is `n`. -/
def mkAddr (n : Nat) : List Nat := List.replicate 31 0 ++ [n]

/-- Ownership classification of a remote object (`sui_types::object::Owner`). -/
inductive Owner where
  | AddressOwner (owner : SuiAddress)
  | ObjectOwner (owner : SuiAddress)
  | Shared (initial_shared_version : Nat)
  | Immutable
deriving DecidableEq

/-- The data of a remote object as returned by `get_object_with_options`
(the fields the client reads: id, version, digest, type string, owner). -/
structure ObjectData where
  id : ObjectID
  version : Nat
  digest : Nat
  type_ : Option (List Char)
  owner : Option Owner
deriving DecidableEq

/-- An object reference triple, as produced by `SuiObjectData::object_ref()`. -/
structure ObjectRef where
  id : ObjectID
  version : Nat
  digest : Nat
deriving DecidableEq

/-- The `object_ref()` accessor. -/
def ObjectData.object_ref (od : ObjectData) : ObjectRef :=
  { id := od.id, version := od.version, digest := od.digest }

/-- One coin row of a `get_coins` page; the client only reads the object id. -/
structure Coin where
  coin_object_id : ObjectID
deriving DecidableEq

/-- Whether a shared object is taken mutably
(`sui_sdk::types::transaction::SharedObjectMutability`). -/
inductive SharedObjectMutability where
  | Mutable
  | Immutable
deriving DecidableEq

/-- An object call argument (`sui_sdk::types::transaction::ObjectArg`). -/
inductive ObjectArg where
  | ImmOrOwnedObject (oref : ObjectRef)
  | SharedObject (id : ObjectID) (initial_shared_version : Nat)
      (mutability : SharedObjectMutability)
deriving DecidableEq

/-- A call argument (`sui_sdk::types::transaction::CallArg`). -/
inductive CallArg where
  | Pure (bytes : List Nat)
  | Object (arg : ObjectArg)
deriving DecidableEq

/-- One queued operation of the programmable transaction builder.  The client
only queues Move calls and native SUI transfers. -/
inductive Command where
  | MoveCall (package : ObjectID) (module : String) (function : String)
      (args : List CallArg)
  | TransferSui (recipient : SuiAddress) (amount : Option Nat)
deriving DecidableEq

/-- The cost breakdown of dry-run effects (`GasCostSummary`), in `u64`. -/
structure GasCostSummary where
  computation_cost : Nat
  storage_cost : Nat
  storage_rebate : Nat
deriving DecidableEq

/-- A finalized transaction payload (`TransactionData::new_programmable`). -/
structure TransactionData where
  sender : SuiAddress
  gas_payment : List ObjectRef
  commands : List Command
  gas_price : Nat
  gas_budget : Nat
deriving DecidableEq

/-- Result of a computation that may also abort the process: the Rust code
under verification contains `unwrap` calls and an explicit panic. -/
inductive Outcome (ε α : Type) where
  | ok (a : α)
  | err (e : ε)
  | panicked
deriving DecidableEq

/-- The remote ledger RPC endpoint consumed by the client, one field per RPC
used by the source.  `Except.error` is a transport-level failure; `ok none`
from `getObject` is a successful response whose `data` field is empty
(nonexistent object).  `sign` stands for `keystore.sign_secure` and `submit`
for `execute_transaction_block`; their returned values are not inspected by
the modelled code paths, so they carry `Unit`. -/
structure SuiClient where
  getObject : ObjectID → Except String (Option ObjectData)
  getCoins : SuiAddress → Option Nat → Except String (List Coin)
  gasPrice : Except String Nat
  dryRun : TransactionData → Except String GasCostSummary
  devInspect : SuiAddress → TransactionData → Except String (List (List Nat))
  sign : SuiAddress → TransactionData → Except String Unit
  submit : TransactionData → Except String Unit

/-- Error enum of `error.rs` (`TransactionError`). -/
inductive TransactionError where
  | BuildError (msg : String)
  | ExecutionError (msg : String)
  | InsufficientGas (required : Nat) (available : Nat)
  | ObjectNotFound (addr : SuiAddress)
deriving DecidableEq

/-- Error enum of `error.rs` (`KeystoreError`); the `UnsupportedKeyScheme`
payload is the scheme flag byte. -/
inductive KeystoreError where
  | InvalidBech32 (msg : String)
  | InvalidHRP (hrp : String)
  | InvalidKeyLength (len : Nat)
  | UnsupportedKeyScheme (flag : Nat)
  | KeystoreOperation (msg : String)
  | SuiSdkError (msg : String)
deriving DecidableEq

/-- Error enum of `error.rs` (`CanaryError`); the `Client` payload is kept as
its message. -/
inductive CanaryError where
  | Registry (msg : String)
  | NotMember
  | NotAdmin
  | CanaryBlobNotFound
  | Transaction (e : TransactionError)
  | Client (msg : String)
deriving DecidableEq

/-- Validity of a Move identifier as checked by `Identifier::from_str`
(ASCII letter or underscore, then letters, digits or underscores). -/
def isValidIdentChar (c : Char) : Bool := c.isAlphanum || c == '_'

/-- Validity of a Move identifier string. -/
def isValidIdentifier (s : String) : Bool :=
  match s.toList with
  | [] => false
  | c :: rest => (c.isAlpha || c == '_') && rest.all isValidIdentChar

/-- The transaction assembler state (`CanaryTransactionBuilder`): the signer,
the queued operation list of the inner programmable transaction builder, and
the optional pinned gas budget and gas object. -/
structure CanaryTransactionBuilder where
  signer : SuiAddress
  builder : List Command
  gas_budget : Option Nat
  gas_object : Option ObjectID
deriving DecidableEq

/-- Rust `CanaryTransactionBuilder::new`. -/
def CanaryTransactionBuilder.new (signer : SuiAddress) : CanaryTransactionBuilder :=
  { signer := signer, builder := [], gas_budget := none, gas_object := none }

/-- Rust `CanaryTransactionBuilder::move_call`: validates the module and function
identifiers, then queues the Move call.  The inner programmable transaction
builder of the SDK is modelled as the plain command queue; its own error
paths are not exercised by the call sites of this repository. -/
def move_call (b : CanaryTransactionBuilder) (package : ObjectID)
    (module : String) (function : String) (args : List CallArg) :
    Except TransactionError CanaryTransactionBuilder :=
  if isValidIdentifier module = false then
    .error (.BuildError ("Invalid module name: " ++ module))
  else if isValidIdentifier function = false then
    .error (.BuildError ("Invalid function name: " ++ function))
  else
    .ok { b with builder := b.builder ++ [Command.MoveCall package module function args] }

/-- Rust `CanaryTransactionBuilder::transfer_sui`: queues the transfer and returns
`Ok` unconditionally (the SDK call it wraps returns no error). -/
def transfer_sui (b : CanaryTransactionBuilder) (recipient : SuiAddress)
    (amount : Nat) : Except TransactionError CanaryTransactionBuilder :=
  .ok { b with builder := b.builder ++ [Command.TransferSui recipient (some amount)] }

/-- Rust `CanaryTransactionBuilder::set_gas_budget`. -/
def set_gas_budget (b : CanaryTransactionBuilder) (budget : Nat) :
    CanaryTransactionBuilder :=
  { b with gas_budget := some budget }

/-- Rust `CanaryTransactionBuilder::set_gas_object`. -/
def set_gas_object (b : CanaryTransactionBuilder) (gas_object : ObjectID) :
    CanaryTransactionBuilder :=
  { b with gas_object := some gas_object }

/-- Rust `CanaryTransactionBuilder::estimate_gas`: dry-runs the transaction and
returns `computation_cost + storage_cost - storage_rebate` in `u64`. -/
def estimate_gas (client : SuiClient) (transaction_data : TransactionData) :
    Except TransactionError Nat :=
  match client.dryRun transaction_data with
  | .error e => .error (.BuildError ("Gas estimation failed: " ++ e))
  | .ok g => .ok (sub64 (add64 g.computation_cost g.storage_cost) g.storage_rebate)

/-- The gas-object block of `build`: either fetch the pinned gas object, or
take the first coin of the signer and fetch its full reference. -/
def resolve_gas_object (client : SuiClient) (b : CanaryTransactionBuilder) :
    Except TransactionError ObjectRef :=
  match b.gas_object with
  | some gas_obj_id =>
    match client.getObject gas_obj_id with
    | .error e => .error (.BuildError ("Failed to get gas object: " ++ e))
    | .ok none => .error (.BuildError "Failed to convert gas object")
    | .ok (some o) => .ok o.object_ref
  | none =>
    match client.getCoins b.signer none with
    | .error e => .error (.BuildError ("Failed to get gas objects: " ++ e))
    | .ok gas_objects =>
      match gas_objects.head? with
      | none => .error (.InsufficientGas 0 0)
      | some first_gas =>
        match client.getObject first_gas.coin_object_id with
        | .error e => .error (.BuildError ("Failed to get gas object: " ++ e))
        | .ok none => .error (.BuildError "Failed to convert gas object")
        | .ok (some o) => .ok o.object_ref

/-- The gas-budget block of `build`: either the pinned budget, or a dry-run
estimate over a placeholder-budget transaction plus a 20 percent buffer
computed as `estimated + estimated / 5` in `u64`. -/
def resolve_gas_budget (client : SuiClient) (b : CanaryTransactionBuilder)
    (pt : List Command) (gas_object_ref : ObjectRef) :
    Except TransactionError Nat :=
  match b.gas_budget with
  | some budget => .ok budget
  | none =>
    match client.gasPrice with
    | .error e => .error (.BuildError ("Failed to get gas price: " ++ e))
    | .ok gas_price =>
      let temp_tx : TransactionData :=
        { sender := b.signer, gas_payment := [gas_object_ref], commands := pt,
          gas_price := gas_price, gas_budget := 10000000 }
      match estimate_gas client temp_tx with
      | .error e => .error e
      | .ok estimated => .ok (add64 estimated (estimated / 5))

/-- The value computed by `CanaryTransactionBuilder::build` (before the
mutation of the builder state is accounted for): resolve the gas object, the
budget, the reference gas price, and assemble the payload from the operation
queue taken at entry. -/
def build_result (client : SuiClient) (b : CanaryTransactionBuilder) :
    Except TransactionError TransactionData :=
  match resolve_gas_object client b with
  | .error e => .error e
  | .ok gas_object_ref =>
    match resolve_gas_budget client b b.builder gas_object_ref with
    | .error e => .error e
    | .ok gas_budget =>
      match client.gasPrice with
      | .error e => .error (.BuildError ("Failed to get gas price: " ++ e))
      | .ok gas_price =>
        .ok { sender := b.signer, gas_payment := [gas_object_ref], commands := b.builder,
              gas_price := gas_price, gas_budget := gas_budget }

/-- Rust `CanaryTransactionBuilder::build`: the source replaces the inner builder
with a fresh one (`std::mem::replace`) before anything else, so the returned
assembler state always has an empty queue, whatever the result. -/
def build (client : SuiClient) (b : CanaryTransactionBuilder) :
    Except TransactionError TransactionData × CanaryTransactionBuilder :=
  (build_result client b, { b with builder := [] })

/-- The value computed by `CanaryTransactionBuilder::execute`: build, sign
with the keystore, submit.  A successful response is modelled by the
submitted payload itself. -/
def execute_result (client : SuiClient) (b : CanaryTransactionBuilder) :
    Except TransactionError TransactionData :=
  match build_result client b with
  | .error e => .error e
  | .ok transaction_data =>
    match client.sign b.signer transaction_data with
    | .error e => .error (.BuildError ("Failed to sign transaction: " ++ e))
    | .ok _ =>
      match client.submit transaction_data with
      | .error e => .error (.ExecutionError e)
      | .ok _ => .ok transaction_data

/-- Rust `CanaryTransactionBuilder::execute`, with the builder-state mutation made
explicit exactly as for `build`. -/
def execute (client : SuiClient) (b : CanaryTransactionBuilder) :
    Except TransactionError TransactionData × CanaryTransactionBuilder :=
  (execute_result client b, { b with builder := [] })

/-- Hex digit test as accepted by `hex::decode` (both letter cases). -/
def isHexDigit (c : Char) : Bool :=
  (Char.ofNat 48 ≤ c && c ≤ Char.ofNat 57) ||
  (Char.ofNat 97 ≤ c && c ≤ Char.ofNat 102) ||
  (Char.ofNat 65 ≤ c && c ≤ Char.ofNat 70)

/-- Numeric value of a hex digit. -/
def hexVal (c : Char) : Nat :=
  if c.toNat ≤ 57 then c.toNat - 48
  else if 97 ≤ c.toNat then c.toNat - 87
  else c.toNat - 55

/-- Pair up a nibble list into bytes (most significant nibble first). -/
def nibblesToBytes : List Nat → List Nat
  | hi :: lo :: rest => (hi * 16 + lo) :: nibblesToBytes rest
  | _ => []

/-- Rust `ObjectID::from_hex_literal` of the SDK: requires a lowercase `0x`
prefix, at most 64 hex digits, pads on the left with zeros to 32 bytes.
An empty digit string parses as the zero address (the source pads it). -/
def from_hex_literal (s : List Char) : Option ObjectID :=
  match s with
  | '0' :: 'x' :: rest =>
    if rest.length ≤ 64 ∧ rest.all isHexDigit = true then
      some (nibblesToBytes (List.replicate (64 - rest.length) 0 ++ rest.map hexVal))
    else none
  | _ => none

/-- Index of the first occurrence of the two-character separator, as computed
by `str::find` with pattern `::` (byte index; the type strings handled here
are ASCII, so byte and character indices agree). -/
def findColons : List Char → Option Nat
  | [] => none
  | c :: rest =>
    if c = ':' ∧ rest.head? = some ':' then some 0
    else (findColons rest).map (fun i => i + 1)

/-- Rust `extract_package_id_from_type`: take the segment before the first `::`
and parse it as a hex address literal; no separator means no value. -/
def extract_package_id_from_type (type_str : List Char) : Option ObjectID :=
  match findColons type_str with
  | some colon_pos => from_hex_literal (type_str.take colon_pos)
  | none => none

/-- Rust `get_initial_shared_version`: fetches the object, then `unwrap`s the
`data` field, `unwrap`s the `owner` field, and panics with an empty message
when the owner is not `Shared`.  The three abort paths are modelled as
`Outcome.panicked`. -/
def get_initial_shared_version (client : SuiClient) (object_id : ObjectID) :
    Outcome String Nat :=
  match client.getObject object_id with
  | .error e => .err e
  | .ok none => .panicked
  | .ok (some od) =>
    match od.owner with
    | none => .panicked
    | some (Owner.Shared initial_shared_version) => .ok initial_shared_version
    | some _ => .panicked

/-- The dummy sender used by `dev_inspect_call` (`SuiAddress::from_str` of
the literal `0x1`). -/
def dummy_sender : SuiAddress := mkAddr 1

/-- Rust `dev_inspect_call`: build a one-call programmable transaction with the
dummy sender, no gas objects and a placeholder budget, run it as a dev
inspection and return the raw return-value buffers. -/
def dev_inspect_call (client : SuiClient) (package_id : ObjectID)
    (module : String) (function : String) (args : List CallArg) :
    Except CanaryError (List (List Nat)) :=
  if isValidIdentifier module = false then
    .error (.Registry ("Invalid module name: " ++ module))
  else if isValidIdentifier function = false then
    .error (.Registry ("Invalid function name: " ++ function))
  else
    match client.gasPrice with
    | .error e => .error (.Registry ("Failed to get gas price: " ++ e))
    | .ok gas_price =>
      let transaction_data : TransactionData :=
        { sender := dummy_sender, gas_payment := [],
          commands := [Command.MoveCall package_id module function args],
          gas_price := gas_price, gas_budget := 10000000 }
      match client.devInspect dummy_sender transaction_data with
      | .error e => .error (.Registry ("dev_inspect failed: " ++ e))
      | .ok return_values => .ok return_values

/-- The nested helper `parse_address` of `query_canary_blob`: a buffer is a
valid address exactly when it is 32 bytes long, and it is returned as-is
(`ObjectID::from_bytes` of a 32-byte array never fails). -/
def parse_address (bytes : List Nat) : Except CanaryError ObjectID :=
  if bytes.length ≠ 32 then
    .error (.Registry ("Invalid address length: expected 32, got " ++ toString bytes.length))
  else .ok bytes

/-- ULEB128 decoding used by the external `bcs` crate for length prefixes
(overlong-encoding rejection of the crate is not modelled; no claim depends
on it). -/
def ulebDecodeAux : List Nat → Nat → Nat → Option (Nat × List Nat)
  | [], _, _ => none
  | b :: rest, shift, acc =>
    if b < 128 then some (acc + b * 2 ^ shift, rest)
    else ulebDecodeAux rest (shift + 7) (acc + (b - 128) * 2 ^ shift)

/-- Modelled from the external `bcs` crate: a BCS string is a ULEB128 length
prefix followed by exactly that many bytes, with no trailing bytes
(`bcs::from_bytes` requires full consumption); UTF-8 validity of the content
is not modelled and the decoded string is kept as its byte list. -/
def bcsDecodeString (bytes : List Nat) : Option (List Nat) :=
  match ulebDecodeAux bytes 0 0 with
  | none => none
  | some (n, rest) => if rest.length = n then some rest else none

/-- Modelled from the external `bcs` crate: a BCS `u64` is exactly eight
little-endian bytes. -/
def bcsDecodeU64 (bytes : List Nat) : Option Nat :=
  match bytes with
  | [b0, b1, b2, b3, b4, b5, b6, b7] =>
    some (b0 + b1 * 2 ^ 8 + b2 * 2 ^ 16 + b3 * 2 ^ 24 + b4 * 2 ^ 32 +
          b5 * 2 ^ 40 + b6 * 2 ^ 48 + b7 * 2 ^ 56)
  | _ => none

/-- Rust `RegistryInfo` of `canary.rs`. -/
structure RegistryInfo where
  id : ObjectID
  fee : Nat
  member_count : Nat
  admin : SuiAddress
deriving DecidableEq

/-- Rust `CanaryBlobInfo` of `canary.rs`; the domain is its byte list. -/
structure CanaryBlobInfo where
  id : ObjectID
  contract_blob_id : ObjectID
  explain_blob_id : ObjectID
  package_id : ObjectID
  domain : List Nat
  uploaded_at : Nat
  uploaded_by_admin : SuiAddress
deriving DecidableEq

/-- Rust `query_registry_admin`: fetch the registry for its current reference,
dev-inspect `get_admin` passing the registry shared object at its current
version (`object_ref().1`), and decode the single address return value. -/
def query_registry_admin (client : SuiClient) (package_id : ObjectID)
    (registry_id : ObjectID) : Except CanaryError SuiAddress :=
  match client.getObject registry_id with
  | .error e => .error (.Registry ("Failed to get registry: " ++ e))
  | .ok none => .error (.Registry "Registry not found")
  | .ok (some registry_obj) =>
    match dev_inspect_call client package_id "member_registry" "get_admin"
        [CallArg.Object (ObjectArg.SharedObject registry_id
          registry_obj.object_ref.version SharedObjectMutability.Immutable)] with
    | .error e => .error e
    | .ok result =>
      match result.head? with
      | none => .error (.Registry "get_admin returned no value")
      | some r0 =>
        if r0.length ≠ 32 then
          .error (.Registry ("Invalid admin address length: expected 32, got " ++
            toString r0.length))
        else .ok r0

/-- Rust `query_registry_fields`: the source returns this error unconditionally
(the Move contract has no matching view functions). -/
def query_registry_fields (client : SuiClient) (package_id : ObjectID)
    (registry_id : ObjectID) : Except CanaryError (Nat × Nat) :=
  .error (.Registry
    "query_registry_fields requires Move view functions get_member_count() and get_fee(). Please add these functions to the member_registry module or parse object BCS data.")

/-- Rust `query_registry`: fetch the registry object, extract the package id from
its type string, query the admin, then the member count and fee. -/
def query_registry (client : SuiClient) (registry_id : ObjectID) :
    Except CanaryError RegistryInfo :=
  match client.getObject registry_id with
  | .error e => .error (.Registry ("Failed to get registry object: " ++ e))
  | .ok none => .error (.Registry "Registry object not found")
  | .ok (some registry_obj) =>
    match registry_obj.type_ with
    | none => .error (.Registry "Registry object has no type")
    | some object_type =>
      match extract_package_id_from_type object_type with
      | none => .error (.Registry "Failed to extract package ID")
      | some package_id =>
        match query_registry_admin client package_id registry_id with
        | .error e => .error e
        | .ok admin =>
          match query_registry_fields client package_id registry_id with
          | .error e => .error e
          | .ok (member_count, fee) =>
            .ok { id := registry_id, fee := fee, member_count := member_count,
                  admin := admin }

/-- Rust `join_registry`: parse the clock id, query the registry (whose result is
unused), refetch the registry object, extract the package id, pick the first
coin of a one-row holdings page as payment, refetch that coin, queue the
`member_registry::join_registry` Move call and execute it.  The
`payment_amount` parameter of the source is accepted and never read.  The
registry shared-object argument carries the current version from
`object_ref` and the clock is pinned at version 1. -/
def join_registry (client : SuiClient) (signer : SuiAddress)
    (registry_id : ObjectID) (domain : List Nat) (payment_amount : Nat) :
    Except CanaryError TransactionData :=
  match from_hex_literal ("0x6".toList) with
  | none => .error (.Registry "Failed to parse Clock object ID")
  | some clock_id =>
    match query_registry client registry_id with
    | .error e => .error e
    | .ok _registry_info =>
      match client.getObject registry_id with
      | .error e => .error (.Registry ("Failed to get registry object: " ++ e))
      | .ok none => .error (.Registry "Registry object not found")
      | .ok (some registry_obj) =>
        let registry_ref := registry_obj.object_ref
        match registry_obj.type_ with
        | none => .error (.Registry "Registry object has no type")
        | some object_type =>
          match extract_package_id_from_type object_type with
          | none => .error (.Registry "Failed to extract package ID from registry type")
          | some package_id =>
            match client.getCoins signer (some 1) with
            | .error e => .error (.Registry ("Failed to get coins: " ++ e))
            | .ok coins =>
              match coins.head? with
              | none => .error (.Registry "No coins available for payment")
              | some payment_coin =>
                match client.getObject payment_coin.coin_object_id with
                | .error e => .error (.Registry ("Failed to get payment coin: " ++ e))
                | .ok none => .error (.Registry "Payment coin object not found")
                | .ok (some payment_coin_obj) =>
                  let args := [
                    CallArg.Object (ObjectArg.SharedObject registry_id
                      registry_ref.version SharedObjectMutability.Mutable),
                    CallArg.Object (ObjectArg.ImmOrOwnedObject payment_coin_obj.object_ref),
                    CallArg.Pure domain,
                    CallArg.Object (ObjectArg.SharedObject clock_id 1
                      SharedObjectMutability.Immutable)]
                  match move_call (CanaryTransactionBuilder.new signer) package_id
                      "member_registry" "join_registry" args with
                  | .error e => .error (.Transaction e)
                  | .ok b1 =>
                    match execute_result client b1 with
                    | .error e => .error (.Transaction e)
                    | .ok response => .ok response

/-- Rust `store_blob`: parse the clock id, fetch the registry object for its
current reference and package id, fetch the admin cap, queue the
`pkg_storage::store_blob` Move call and execute it.  The registry
shared-object argument carries the current version from `object_ref`. -/
def store_blob (client : SuiClient) (signer : SuiAddress)
    (registry_id : ObjectID) (admin_cap_id : ObjectID) (domain : List Nat)
    (contract_blob_id : ObjectID) (explain_blob_id : ObjectID)
    (package_id : ObjectID) : Except CanaryError TransactionData :=
  match from_hex_literal ("0x6".toList) with
  | none => .error (.Registry "Failed to parse Clock object ID")
  | some clock_id =>
    match client.getObject registry_id with
    | .error e => .error (.Registry ("Failed to get registry object: " ++ e))
    | .ok none => .error (.Registry "Registry object not found")
    | .ok (some registry_obj) =>
      let registry_ref := registry_obj.object_ref
      match registry_obj.type_ with
      | none => .error (.Registry "Registry object has no type")
      | some object_type =>
        match extract_package_id_from_type object_type with
        | none => .error (.Registry "Failed to extract package ID")
        | some canary_package_id =>
          match client.getObject admin_cap_id with
          | .error e => .error (.Registry ("Failed to get admin cap: " ++ e))
          | .ok none => .error (.Registry "Admin cap not found")
          | .ok (some admin_cap_obj) =>
            let args := [
              CallArg.Object (ObjectArg.SharedObject registry_id
                registry_ref.version SharedObjectMutability.Mutable),
              CallArg.Object (ObjectArg.ImmOrOwnedObject admin_cap_obj.object_ref),
              CallArg.Pure domain,
              CallArg.Pure contract_blob_id,
              CallArg.Pure explain_blob_id,
              CallArg.Pure package_id,
              CallArg.Object (ObjectArg.SharedObject clock_id 1
                SharedObjectMutability.Immutable)]
            match move_call (CanaryTransactionBuilder.new signer) canary_package_id
                "pkg_storage" "store_blob" args with
            | .error e => .error (.Transaction e)
            | .ok b1 =>
              match execute_result client b1 with
              | .error e => .error (.Transaction e)
              | .ok response => .ok response

/-- Rust `derive_canary_address`: fetch the registry, extract the package id,
fetch the initial shared version from the ownership metadata (this helper
can panic), dev-inspect `pkg_storage::derive_canary_address`, and decode the
first return buffer as a 32-byte address.  Indexing an empty return-value
vector in the source panics. -/
def derive_canary_address (client : SuiClient) (registry_id : ObjectID)
    (domain : List Nat) (package_id : ObjectID) :
    Outcome CanaryError SuiAddress :=
  match client.getObject registry_id with
  | .error e => .err (.Registry ("Failed to get registry object: " ++ e))
  | .ok none => .err (.Registry "Registry object not found")
  | .ok (some registry_obj) =>
    match registry_obj.type_ with
    | none => .err (.Registry "Registry object has no type")
    | some object_type =>
      match extract_package_id_from_type object_type with
      | none => .err (.Registry "Failed to extract package ID")
      | some canary_package_id =>
        match get_initial_shared_version client registry_id with
        | .panicked => .panicked
        | .err e => .err (.Registry ("Failed to get initial shared version: " ++ e))
        | .ok initial_shared_version =>
          match dev_inspect_call client canary_package_id "pkg_storage"
              "derive_canary_address"
              [CallArg.Object (ObjectArg.SharedObject registry_id
                 initial_shared_version SharedObjectMutability.Immutable),
               CallArg.Pure domain,
               CallArg.Pure package_id] with
          | .error e => .err e
          | .ok result =>
            match result.head? with
            | none => .panicked
            | some r0 =>
              if r0.length ≠ 32 then
                .err (.Registry ("Invalid address length: expected 32, got " ++
                  toString r0.length))
              else .ok r0

/-- Rust `query_canary_blob`: fetch the blob object (any failure mapped to
`CanaryBlobNotFound`), extract the package id, fetch the initial shared
version (can panic), dev-inspect `pkg_storage::get_full_info`, require
exactly six return buffers -- a different count is reported as
`CanaryBlobNotFound` -- and decode them positionally. -/
def query_canary_blob (client : SuiClient) (canary_blob_id : ObjectID) :
    Outcome CanaryError CanaryBlobInfo :=
  match client.getObject canary_blob_id with
  | .error _ => .err .CanaryBlobNotFound
  | .ok none => .err .CanaryBlobNotFound
  | .ok (some canary_blob_obj) =>
    match canary_blob_obj.type_ with
    | none => .err .CanaryBlobNotFound
    | some object_type =>
      match extract_package_id_from_type object_type with
      | none => .err .CanaryBlobNotFound
      | some canary_package_id =>
        match get_initial_shared_version client canary_blob_id with
        | .panicked => .panicked
        | .err e => .err (.Registry ("Failed to get initial shared version: " ++ e))
        | .ok initial_shared_version =>
          match dev_inspect_call client canary_package_id "pkg_storage"
              "get_full_info"
              [CallArg.Object (ObjectArg.SharedObject canary_blob_id
                 initial_shared_version SharedObjectMutability.Immutable)] with
          | .error e => .err e
          | .ok result =>
            if result.length ≠ 6 then .err .CanaryBlobNotFound
            else
              match result with
              | [r0, r1, r2, r3, r4, r5] =>
                match parse_address r0 with
                | .error e => .err e
                | .ok contract_blob_id =>
                  match parse_address r1 with
                  | .error e => .err e
                  | .ok explain_blob_id =>
                    match parse_address r2 with
                    | .error e => .err e
                    | .ok pkg =>
                      match bcsDecodeString r3 with
                      | none => .err (.Registry "Failed to deserialize domain")
                      | some domain =>
                        match bcsDecodeU64 r4 with
                        | none => .err (.Registry "Failed to deserialize uploaded_at")
                        | some uploaded_at =>
                          match parse_address r5 with
                          | .error e => .err e
                          | .ok uploaded_by_admin =>
                            .ok { id := canary_blob_id,
                                  contract_blob_id := contract_blob_id,
                                  explain_blob_id := explain_blob_id,
                                  package_id := pkg, domain := domain,
                                  uploaded_at := uploaded_at,
                                  uploaded_by_admin := uploaded_by_admin }
              | _ => .err .CanaryBlobNotFound

/-- The cryptographic scheme tag (`SignatureScheme`). -/
inductive SignatureScheme where
  | ED25519
  | Secp256k1
  | Secp256r1
deriving DecidableEq

/-- Rust `SignatureScheme::flag`. -/
def SignatureScheme.flag : SignatureScheme → Nat
  | .ED25519 => 0
  | .Secp256k1 => 1
  | .Secp256r1 => 2

/-- A typed key pair (`SuiKeyPair`): its scheme variant and the raw secret
bytes returned by `to_bytes_no_flag`. -/
structure SuiKeyPair where
  scheme : SignatureScheme
  secret : List Nat
deriving DecidableEq

/-- Modelled from the external sui-sdk: `SuiKeyPair::from_bytes` reads a
scheme flag byte followed by the 32 secret bytes.  Scheme-specific scalar
validation is not modelled; the call sites below only reconstruct byte
strings previously produced by a successful decode. -/
def SuiKeyPair.from_bytes (bytes : List Nat) : Except String SuiKeyPair :=
  match bytes with
  | [] => .error "empty key bytes"
  | f :: rest =>
    match (if f = 0 then some SignatureScheme.ED25519
           else if f = 1 then some SignatureScheme.Secp256k1
           else if f = 2 then some SignatureScheme.Secp256r1 else none) with
    | none => .error "invalid flag byte"
    | some scheme =>
      if rest.length = 32 then .ok { scheme := scheme, secret := rest }
      else .error "invalid key length"

/-- The external cryptographic capability consumed by `keystore.rs`:
`SuiKeyPair::decode` (Bech32 decoding of a `suiprivkey` string) and the
composite `SuiAddress::from(&keypair.public())` (public-key derivation
followed by address hashing).  Both are deterministic pure functions of
their input; their internals are out of scope and left abstract. -/
structure SuiCrypto where
  decode : String → Except String SuiKeyPair
  public_address : SuiKeyPair → SuiAddress

/-- Rust `ParsedPrivateKey` of `keystore.rs`. -/
structure ParsedPrivateKey where
  private_key_bytes : List Nat
  scheme : SignatureScheme
  flag : Nat
deriving DecidableEq

/-- Rust `ParsedPrivateKey::to_keypair`: rebuild the 33-byte `flag || secret`
form and parse it back with `SuiKeyPair::from_bytes`. -/
def to_keypair (parsed : ParsedPrivateKey) : Except KeystoreError SuiKeyPair :=
  match SuiKeyPair.from_bytes (parsed.flag :: parsed.private_key_bytes) with
  | .error e => .error (.SuiSdkError e)
  | .ok kp => .ok kp

/-- Rust `ParsedPrivateKey::to_address`: derive the address of the rebuilt key
pair. -/
def to_address (prim : SuiCrypto) (parsed : ParsedPrivateKey) :
    Except KeystoreError SuiAddress :=
  match to_keypair parsed with
  | .error e => .error e
  | .ok keypair => .ok (prim.public_address keypair)

/-- Rust `parse_bech32_private_key`: decode the Bech32 string, read off the
scheme variant, its flag, and the raw secret bytes, checking their length. -/
def parse_bech32_private_key (prim : SuiCrypto) (bech32_str : String) :
    Except KeystoreError ParsedPrivateKey :=
  match prim.decode bech32_str with
  | .error e => .error (.InvalidBech32 e)
  | .ok keypair =>
    let scheme := keypair.scheme
    let flag := scheme.flag
    let private_key_bytes := keypair.secret
    if private_key_bytes.length ≠ 32 then
      .error (.InvalidKeyLength private_key_bytes.length)
    else
      .ok { private_key_bytes := private_key_bytes, scheme := scheme, flag := flag }

/-- An in-memory keystore: the association list from derived address to key
pair kept by `InMemKeystore`. -/
abbrev Keystore := List (SuiAddress × SuiKeyPair)

/-- Modelled from the external sui-keys crate: `Keystore::import` derives
the address from the public key of the pair and stores the pair under it
(the optional alias, absent at the modelled call sites, is irrelevant). -/
def keystore_import (prim : SuiCrypto) (ks : Keystore) (keypair : SuiKeyPair) :
    Except String Keystore :=
  .ok ((prim.public_address keypair, keypair) :: ks)

/-- Modelled from the external sui-keys crate: `Keystore::export` looks the
address up and returns the stored key pair. -/
def keystore_export (ks : Keystore) (address : SuiAddress) : Option SuiKeyPair :=
  (ks.find? (fun e => e.1 == address)).map (fun e => e.2)

/-- Rust `create_keystore_from_key`: parse the Bech32 key, derive its address,
rebuild the key pair, and import it into a fresh in-memory keystore. -/
def create_keystore_from_key (prim : SuiCrypto) (bech32_key : String) :
    Except KeystoreError (Keystore × SuiAddress) :=
  match parse_bech32_private_key prim bech32_key with
  | .error e => .error e
  | .ok parsed_key =>
    match to_address prim parsed_key with
    | .error e => .error e
    | .ok address =>
      match to_keypair parsed_key with
      | .error e => .error e
      | .ok keypair =>
        match keystore_import prim [] keypair with
        | .error e => .error (.KeystoreOperation e)
        | .ok keystore => .ok (keystore, address)

/-!
Concrete remote states used by the counterexamples and witnesses below.
-/

/-- A shared registry object whose current version (42) differs from its
initial shared version (5). -/
def registryObj : ObjectData :=
  { id := mkAddr 17, version := 42, digest := 1001,
    type_ := some ("0x7::member_registry::Registry".toList),
    owner := some (Owner.Shared 5) }

/-- An owned admin-cap object. -/
def adminCapObj : ObjectData :=
  { id := mkAddr 18, version := 3, digest := 1002,
    type_ := some ("0x7::member_registry::AdminCap".toList),
    owner := some (Owner.AddressOwner (mkAddr 9)) }

/-- An owned gas coin of the signer. -/
def coinObj : ObjectData :=
  { id := mkAddr 19, version := 4, digest := 1003,
    type_ := some ("0x2::coin::Coin".toList),
    owner := some (Owner.AddressOwner (mkAddr 9)) }

/-- A shared canary-blob object whose current version differs from its
initial shared version. -/
def blobObj : ObjectData :=
  { id := mkAddr 25, version := 42, digest := 1004,
    type_ := some ("0x7::pkg_storage::CanaryBlob".toList),
    owner := some (Owner.Shared 5) }

/-- A shared canary-blob object owned by an address (not shared). -/
def ownedBlobObj : ObjectData :=
  { id := mkAddr 41, version := 7, digest := 1005,
    type_ := some ("0x7::pkg_storage::CanaryBlob".toList),
    owner := some (Owner.AddressOwner (mkAddr 9)) }

/-- A fully working remote state: the registry, admin cap and gas coin
exist, prices and dry runs succeed, signing and submission succeed. -/
def clientHappy : SuiClient :=
  { getObject := fun oid =>
      if oid = mkAddr 17 then .ok (some registryObj)
      else if oid = mkAddr 18 then .ok (some adminCapObj)
      else if oid = mkAddr 19 then .ok (some coinObj)
      else .ok none,
    getCoins := fun _ _ => .ok [{ coin_object_id := mkAddr 19 }],
    gasPrice := .ok 1000,
    dryRun := fun _ => .ok { computation_cost := 1000, storage_cost := 500,
                             storage_rebate := 200 },
    devInspect := fun _ _ => .ok [],
    sign := fun _ _ => .ok (),
    submit := fun _ => .ok () }

/-- Like `clientHappy` but the dry run reports the largest possible `u64`
cost, so the 20 percent buffer wraps around. -/
def clientOverflow : SuiClient :=
  { clientHappy with
    dryRun := fun _ => .ok { computation_cost := 18446744073709551615,
                             storage_cost := 0, storage_rebate := 0 } }

/-- Like `clientHappy` but with a shared blob object, and a dev inspection
that returns five raw buffers instead of the six the caller expects. -/
def clientArity5 : SuiClient :=
  { clientHappy with
    getObject := fun oid =>
      if oid = mkAddr 25 then .ok (some blobObj) else .ok none,
    devInspect := fun _ _ => .ok [[], [], [], [], []] }

/-- A remote state with one owned (non-shared) object and nothing else:
object 40 does not exist, object 41 exists but is address-owned. -/
def clientPanics : SuiClient :=
  { clientHappy with
    getObject := fun oid =>
      if oid = mkAddr 41 then .ok (some ownedBlobObj) else .ok none }

/-- A fresh assembler for the signer of the fixtures. -/
def builderFresh : CanaryTransactionBuilder := CanaryTransactionBuilder.new (mkAddr 9)

/-- An assembler holding one queued operation. -/
def builderOneOp : CanaryTransactionBuilder :=
  { builderFresh with builder := [Command.TransferSui (mkAddr 30) (some 5)] }

/-- The Move call that `store_blob` queues on the fixture state: note the
registry argument is pinned at the current version 42, not at the initial
shared version 5 recorded in the ownership metadata. -/
def storeCmd : Command :=
  Command.MoveCall (mkAddr 7) "pkg_storage" "store_blob"
    [CallArg.Object (ObjectArg.SharedObject (mkAddr 17) 42 SharedObjectMutability.Mutable),
     CallArg.Object (ObjectArg.ImmOrOwnedObject { id := mkAddr 18, version := 3, digest := 1002 }),
     CallArg.Pure [100],
     CallArg.Pure (mkAddr 21),
     CallArg.Pure (mkAddr 22),
     CallArg.Pure (mkAddr 23),
     CallArg.Object (ObjectArg.SharedObject (mkAddr 6) 1 SharedObjectMutability.Immutable)]

/-- The payload `store_blob` submits on the fixture state. -/
def tdStore : TransactionData :=
  { sender := mkAddr 9, gas_payment := [{ id := mkAddr 19, version := 4, digest := 1003 }],
    commands := [storeCmd], gas_price := 1000, gas_budget := 1560 }

/-- The payload a second finalize of a spent assembler produces on the
fixture state: an empty operation list. -/
def tdEmpty : TransactionData :=
  { sender := mkAddr 9, gas_payment := [{ id := mkAddr 19, version := 4, digest := 1003 }],
    commands := [], gas_price := 1000, gas_budget := 1560 }

/-- A concrete deterministic instantiation of the external cryptographic
capability, used to exercise the keystore theorems on a closed input. -/
def primTest : SuiCrypto :=
  { decode := fun _ => .ok { scheme := SignatureScheme.ED25519, secret := List.replicate 32 7 },
    public_address := fun kp => kp.secret }

/-!
Helper lemmas shared by the claim proofs.
-/

/-- The clock object literal parses to the address ending in byte 6. -/
theorem clock_eq : from_hex_literal ("0x6".toList) = some (mkAddr 6) := by decide

/-- The payload produced by a successful `build` carries exactly the queue
the assembler held at entry. -/
theorem build_result_ok_commands (client : SuiClient) (b : CanaryTransactionBuilder)
    (td : TransactionData) (h : build_result client b = .ok td) :
    td.commands = b.builder := by
  unfold build_result at h
  split at h
  · exact Except.noConfusion h
  · split at h
    · exact Except.noConfusion h
    · split at h
      · exact Except.noConfusion h
      · injection h with h4
        rw [← h4]

/-- A successful `execute` returns exactly the payload built from the
assembler state. -/
theorem execute_result_ok (client : SuiClient) (b : CanaryTransactionBuilder)
    (td : TransactionData) (h : execute_result client b = .ok td) :
    build_result client b = .ok td := by
  unfold execute_result at h
  split at h
  · exact Except.noConfusion h
  · rename_i transaction_data heq
    split at h
    · exact Except.noConfusion h
    · split at h
      · exact Except.noConfusion h
      · injection h with h4
        rw [heq, h4]

/-- The module name used by the storage helpers is a valid Move identifier. -/
theorem ident_pkg_storage : isValidIdentifier "pkg_storage" = true := by decide

/-- The function name queued by `store_blob` is a valid Move identifier. -/
theorem ident_store_blob : isValidIdentifier "store_blob" = true := by decide

/-- The function name queried by `query_canary_blob` is a valid Move
identifier. -/
theorem ident_get_full_info : isValidIdentifier "get_full_info" = true := by decide

/-- A hex digit is never the separator character. -/
theorem isHexDigit_ne_colon (c : Char) (h : isHexDigit c = true) : ¬ (c = ':') := by
  intro hc
  subst hc
  exact absurd h (by decide)

/-- When a prefix contains no separator character, the first `::` of the
concatenation sits exactly at the end of the prefix. -/
theorem findColons_append (l tail : List Char) (h : ∀ c ∈ l, ¬ (c = ':')) :
    findColons (l ++ ':' :: ':' :: tail) = some l.length := by
  induction l with
  | nil => simp [findColons]
  | cons c l ih =>
    have hc : ¬ (c = ':') := h c (List.mem_cons_self c l)
    rw [List.cons_append]
    simp only [findColons, hc, false_and, if_false]
    rw [ih (fun d hd => h d (List.mem_cons_of_mem c hd))]
    simp

/-- Wrapping addition is monotone in its first argument as long as the sum
does not overflow. -/
theorem le_add64_of_no_overflow (a b : Nat) (h : a + b < 2 ^ 64) : a ≤ add64 a b := by
  rw [add64, wrap64, Nat.mod_eq_of_lt h]
  exact Nat.le_add_right _ _

/-- Claim C1 (counterexample): the finalized budget is not always at least
the raw estimated cost.  On a remote state whose dry run reports a
computation cost of `2 ^ 64 - 1`, the raw estimate is `2 ^ 64 - 1` but the
`u64` addition of the 20 percent buffer wraps, so the finalized budget
`3689348814741910322` is strictly below the estimate. -/
theorem C1_counterexample :
    ((build clientOverflow builderFresh).1.map (fun td => td.gas_budget)
        = Except.ok 3689348814741910322)
    ∧ estimate_gas clientOverflow
        { sender := mkAddr 9, gas_payment := [coinObj.object_ref],
          commands := [], gas_price := 1000, gas_budget := 10000000 }
        = Except.ok 18446744073709551615
    ∧ 3689348814741910322 < 18446744073709551615 :=
  ⟨rfl, rfl, by norm_num⟩

/-- Claim C1 (amended): for every finalize without a caller-pinned budget
whose gas object comes from the holdings query, the raw estimated cost is
the dry-run computation cost plus storage cost minus storage rebate in
wrapping `u64` arithmetic, the finalized budget is that estimate plus
`estimate / 5` in wrapping `u64` arithmetic, and the budget is at least the
estimate whenever that addition does not overflow `u64`. -/
theorem C1_amended (client : SuiClient) (b : CanaryTransactionBuilder)
    (coin : Coin) (rest : List Coin) (od : ObjectData) (p : Nat) (gs : GasCostSummary)
    (hb : b.gas_budget = none) (hgo : b.gas_object = none)
    (hc : client.getCoins b.signer none = .ok (coin :: rest))
    (ho : client.getObject coin.coin_object_id = .ok (some od))
    (hp : client.gasPrice = .ok p)
    (hd : client.dryRun ⟨b.signer, [od.object_ref], b.builder, p, 10000000⟩ = .ok gs) :
    estimate_gas client ⟨b.signer, [od.object_ref], b.builder, p, 10000000⟩
      = .ok (sub64 (add64 gs.computation_cost gs.storage_cost) gs.storage_rebate)
    ∧ (build client b).1 = .ok ⟨b.signer, [od.object_ref], b.builder, p,
        add64 (sub64 (add64 gs.computation_cost gs.storage_cost) gs.storage_rebate)
          (sub64 (add64 gs.computation_cost gs.storage_cost) gs.storage_rebate / 5)⟩
    ∧ (sub64 (add64 gs.computation_cost gs.storage_cost) gs.storage_rebate
          + sub64 (add64 gs.computation_cost gs.storage_cost) gs.storage_rebate / 5 < 2 ^ 64 →
        sub64 (add64 gs.computation_cost gs.storage_cost) gs.storage_rebate
          ≤ add64 (sub64 (add64 gs.computation_cost gs.storage_cost) gs.storage_rebate)
              (sub64 (add64 gs.computation_cost gs.storage_cost) gs.storage_rebate / 5)) := by
  refine ⟨?_, ?_, ?_⟩
  · simp [estimate_gas, hd]
  · simp [build, build_result, resolve_gas_object, resolve_gas_budget, hgo, hb, hc, ho, hp,
      estimate_gas, hd]
  · exact le_add64_of_no_overflow _ _

/-- Claim C1 (witness): the amended statement evaluated on the concrete
fixture state, where the estimate is 1300 and the finalized budget 1560. -/
theorem C1_amended_witness :
    estimate_gas clientHappy ⟨mkAddr 9, [coinObj.object_ref], [], 1000, 10000000⟩
      = .ok (sub64 (add64 1000 500) 200)
    ∧ (build clientHappy builderFresh).1 = .ok ⟨mkAddr 9, [coinObj.object_ref], [], 1000,
        add64 (sub64 (add64 1000 500) 200) (sub64 (add64 1000 500) 200 / 5)⟩
    ∧ (sub64 (add64 1000 500) 200 + sub64 (add64 1000 500) 200 / 5 < 2 ^ 64 →
        sub64 (add64 1000 500) 200
          ≤ add64 (sub64 (add64 1000 500) 200) (sub64 (add64 1000 500) 200 / 5)) :=
  C1_amended clientHappy builderFresh { coin_object_id := mkAddr 19 } [] coinObj 1000
    { computation_cost := 1000, storage_cost := 500, storage_rebate := 200 }
    rfl rfl rfl rfl rfl rfl

/-- Claim C2 (counterexample): on a registry whose current version is 42 and
whose ownership metadata records initial shared version 5, `store_blob`
submits the registry shared-object argument with `initial_shared_version`
42 -- the current version -- even though the metadata lookup would have
returned 5. -/
theorem C2_counterexample :
    (store_blob clientHappy (mkAddr 9) (mkAddr 17) (mkAddr 18) [100] (mkAddr 21) (mkAddr 22)
        (mkAddr 23)).map (fun td => td.commands) = Except.ok [storeCmd]
    ∧ get_initial_shared_version clientHappy (mkAddr 17) = Outcome.ok 5
    ∧ (42 : Nat) ≠ 5 :=
  ⟨rfl, rfl, by norm_num⟩

/-- Claim C2 (amended): `derive_canary_address` and `query_canary_blob` do
fetch the initial shared version from the ownership metadata, but
`store_blob` (like the argument construction of `join_registry`) populates
the `initial_shared_version` field of the registry argument with the current
version from `object_ref`, which differs from the metadata value once the
object has been mutated. -/
theorem C2_amended (client : SuiClient) (signer : SuiAddress)
    (registry_id : ObjectID) (admin_cap_id : ObjectID) (domain : List Nat)
    (contract_blob_id : ObjectID) (explain_blob_id : ObjectID) (package_id : ObjectID)
    (rObj : ObjectData) (v0 : Nat) (td : TransactionData)
    (hr : client.getObject registry_id = .ok (some rObj))
    (hshared : rObj.owner = some (Owner.Shared v0))
    (hok : store_blob client signer registry_id admin_cap_id domain contract_blob_id
        explain_blob_id package_id = .ok td) :
    get_initial_shared_version client registry_id = .ok v0
    ∧ ∃ pkg aRef, td.commands = [Command.MoveCall pkg "pkg_storage" "store_blob"
        [CallArg.Object (ObjectArg.SharedObject registry_id rObj.version
           SharedObjectMutability.Mutable),
         CallArg.Object (ObjectArg.ImmOrOwnedObject aRef),
         CallArg.Pure domain,
         CallArg.Pure contract_blob_id,
         CallArg.Pure explain_blob_id,
         CallArg.Pure package_id,
         CallArg.Object (ObjectArg.SharedObject (mkAddr 6) 1
           SharedObjectMutability.Immutable)]] := by
  constructor
  · simp [get_initial_shared_version, hr, hshared]
  · simp only [store_blob, clock_eq, hr] at hok
    cases ht : rObj.type_ with
    | none => simp [ht] at hok
    | some t =>
      simp only [ht] at hok
      cases hext : extract_package_id_from_type t with
      | none => simp [hext] at hok
      | some pkg =>
        simp only [hext] at hok
        cases hac : client.getObject admin_cap_id with
        | error e => simp [hac] at hok
        | ok oA =>
          cases oA with
          | none => simp [hac] at hok
          | some aObj =>
            simp only [hac] at hok
            simp only [move_call, ident_pkg_storage, ident_store_blob,
              CanaryTransactionBuilder.new, Bool.true_eq_false, if_false,
              List.nil_append] at hok
            split at hok
            · exact Except.noConfusion hok
            · rename_i response heq
              injection hok with h5
              have hbr := execute_result_ok _ _ _ heq
              have hcmds := build_result_ok_commands _ _ _ hbr
              refine ⟨pkg, aObj.object_ref, ?_⟩
              rw [← h5, hcmds]
              rfl

/-- Claim C2 (witness): the amended statement evaluated on the fixture
state, with the metadata initial shared version 5 and the submitted registry
argument at current version 42. -/
theorem C2_amended_witness :
    get_initial_shared_version clientHappy (mkAddr 17) = .ok 5
    ∧ ∃ pkg aRef, tdStore.commands = [Command.MoveCall pkg "pkg_storage" "store_blob"
        [CallArg.Object (ObjectArg.SharedObject (mkAddr 17) 42
           SharedObjectMutability.Mutable),
         CallArg.Object (ObjectArg.ImmOrOwnedObject aRef),
         CallArg.Pure [100],
         CallArg.Pure (mkAddr 21),
         CallArg.Pure (mkAddr 22),
         CallArg.Pure (mkAddr 23),
         CallArg.Object (ObjectArg.SharedObject (mkAddr 6) 1
           SharedObjectMutability.Immutable)]] :=
  C2_amended clientHappy (mkAddr 9) (mkAddr 17) (mkAddr 18) [100] (mkAddr 21) (mkAddr 22)
    (mkAddr 23) registryObj 5 tdStore rfl rfl rfl

/-- Claim C3: after a finalize, the assembler state returned by `build` has
an empty operation queue, and a second finalize of that spent state, when it
succeeds, produces a transaction whose operation list is empty -- the first
queue is never re-submitted. -/
theorem C3_build_resets_queue (client client2 : SuiClient)
    (b : CanaryTransactionBuilder) (td : TransactionData) :
    (build client b).2.builder = []
    ∧ ((build client2 ((build client b).2)).1 = Except.ok td → td.commands = []) := by
  constructor
  · rfl
  · intro h
    have hc := build_result_ok_commands client2 ((build client b).2) td h
    rw [hc]
    rfl

/-- Claim C3 (witness): on the fixture state, finalizing a spent assembler
succeeds and yields a payload with an empty operation list. -/
theorem C3_witness :
    (build clientHappy (build clientHappy builderOneOp).2).1 = Except.ok tdEmpty
    ∧ tdEmpty.commands = [] :=
  ⟨rfl, (C3_build_resets_queue clientHappy clientHappy builderOneOp tdEmpty).2 rfl⟩

/-- Claim C4 (counterexample): when the dev inspection returns five raw
buffers instead of six, `query_canary_blob` fails with
`CanaryError.CanaryBlobNotFound` -- the very error it returns for a missing
object (a NotFound-kind failure), not a decode-specific error; `CanaryError`
has no decode variant at all. -/
theorem C4_counterexample :
    query_canary_blob clientArity5 (mkAddr 25) = .err CanaryError.CanaryBlobNotFound
    ∧ query_canary_blob clientArity5 (mkAddr 26) = .err CanaryError.CanaryBlobNotFound :=
  ⟨rfl, rfl⟩

/-- Claim C4 (amended): whenever the dev inspection of `get_full_info`
returns a number of raw buffers different from six, `query_canary_blob`
fails with the NotFound-kind error `CanaryError.CanaryBlobNotFound` (the
same value it returns for a nonexistent object), never with success and
never with a decode-specific error. -/
theorem C4_amended (client : SuiClient) (canary_blob_id : ObjectID) (od : ObjectData)
    (t : List Char) (pkg : ObjectID) (isv : Nat) (p : Nat) (bufs : List (List Nat))
    (h1 : client.getObject canary_blob_id = .ok (some od))
    (h2 : od.type_ = some t)
    (h3 : extract_package_id_from_type t = some pkg)
    (h4 : od.owner = some (Owner.Shared isv))
    (h5 : client.gasPrice = .ok p)
    (h6 : client.devInspect dummy_sender
        ⟨dummy_sender, [],
         [Command.MoveCall pkg "pkg_storage" "get_full_info"
           [CallArg.Object (ObjectArg.SharedObject canary_blob_id isv
             SharedObjectMutability.Immutable)]], p, 10000000⟩ = .ok bufs)
    (h7 : bufs.length ≠ 6) :
    query_canary_blob client canary_blob_id = .err CanaryError.CanaryBlobNotFound := by
  simp only [query_canary_blob, get_initial_shared_version, dev_inspect_call,
    ident_pkg_storage, ident_get_full_info, Bool.true_eq_false, if_false,
    h1, h2, h3, h4, h5, h6]
  simp [h7]

/-- Claim C4 (witness): the amended statement evaluated on the fixture state
whose dev inspection returns five buffers. -/
theorem C4_amended_witness :
    query_canary_blob clientArity5 (mkAddr 25) = Outcome.err CanaryError.CanaryBlobNotFound :=
  C4_amended clientArity5 (mkAddr 25) blobObj ("0x7::pkg_storage::CanaryBlob".toList)
    (mkAddr 7) 5 1000 [[], [], [], [], []] rfl rfl (by decide) rfl rfl rfl (by decide)

/-- Claim C5: for every type descriptor of the form `addr ++ "::" ++ rest`
whose leading segment is a valid hex address literal, extraction returns
exactly the parse of that leading segment (and that parse succeeds); for
every string without the separator, and for every string whose leading
segment does not parse as an address, extraction returns no value. -/
theorem C5_extract_package_id :
    (∀ (rest tail : List Char), rest.all isHexDigit = true → rest.length ≤ 64 →
      extract_package_id_from_type (('0' :: 'x' :: rest) ++ (':' :: ':' :: tail))
        = from_hex_literal ('0' :: 'x' :: rest)
      ∧ (from_hex_literal ('0' :: 'x' :: rest)).isSome = true)
    ∧ (∀ s : List Char, findColons s = none → extract_package_id_from_type s = none)
    ∧ (∀ (s : List Char) (i : Nat), findColons s = some i →
        from_hex_literal (s.take i) = none → extract_package_id_from_type s = none) := by
  refine ⟨?_, ?_, ?_⟩
  · intro rest tail hval hlen
    have hnc : ∀ c ∈ ('0' :: 'x' :: rest), ¬ (c = ':') := by
      intro c hc
      rcases List.mem_cons.mp hc with h0 | hc2
      · subst h0; decide
      · rcases List.mem_cons.mp hc2 with h0 | hc3
        · subst h0; decide
        · exact isHexDigit_ne_colon c (List.all_eq_true.mp hval c hc3)
    constructor
    · unfold extract_package_id_from_type
      rw [findColons_append _ _ hnc]
      show from_hex_literal
          ((('0' :: 'x' :: rest) ++ (':' :: ':' :: tail)).take ('0' :: 'x' :: rest).length)
        = from_hex_literal ('0' :: 'x' :: rest)
      rw [List.take_left]
    · simp only [from_hex_literal]
      rw [if_pos ⟨hlen, hval⟩]
      rfl
  · intro s hfind
    simp only [extract_package_id_from_type, hfind]
  · intro s i hfind hnone
    simp only [extract_package_id_from_type, hfind]
    exact hnone

/-- Claim C5 (witness): the positive branch evaluated on the concrete
descriptor `0x7::member_registry::Registry`. -/
theorem C5_witness :
    extract_package_id_from_type
        (('0' :: 'x' :: ['7']) ++ (':' :: ':' :: ("member_registry::Registry".toList)))
      = from_hex_literal ('0' :: 'x' :: ['7'])
    ∧ (from_hex_literal ('0' :: 'x' :: ['7'])).isSome = true :=
  C5_extract_package_id.1 ['7'] ("member_registry::Registry".toList) (by decide) (by decide)

/-- Claim C6: decoding a raw return buffer as an address succeeds exactly on
32-byte buffers and is the identity transform there; every other length
fails with the length-mismatch decode error, never truncating or padding. -/
theorem C6_parse_address (bytes : List Nat) :
    (bytes.length = 32 → parse_address bytes = Except.ok bytes)
    ∧ (bytes.length ≠ 32 → parse_address bytes
        = Except.error (CanaryError.Registry
            ("Invalid address length: expected 32, got " ++ toString bytes.length))) := by
  constructor
  · intro h
    simp [parse_address, h]
  · intro h
    simp [parse_address, h]

/-- Claim C6 (witness): address decoding evaluated on a 32-byte buffer and
on a 3-byte buffer. -/
theorem C6_witness :
    parse_address (List.replicate 32 7) = Except.ok (List.replicate 32 7)
    ∧ parse_address [1, 2, 3] = Except.error (CanaryError.Registry
        ("Invalid address length: expected 32, got " ++ toString ([1, 2, 3] : List Nat).length)) :=
  ⟨(C6_parse_address (List.replicate 32 7)).1 (by decide),
   (C6_parse_address [1, 2, 3]).2 (by decide)⟩

/-- Claim C7 (code bug): the initial-shared-version lookup does not return a
typed NotFound failure on a missing object or a non-shared owner -- it
panics.  On a state where object 40 does not exist the lookup aborts via the
`unwrap` of the empty `data` field; on an existing but address-owned object
41 it aborts via the explicit panic of the owner match; and the panic
propagates through the public `query_canary_blob` operation. -/
theorem C7_lookup_panics :
    get_initial_shared_version clientPanics (mkAddr 40) = Outcome.panicked
    ∧ get_initial_shared_version clientPanics (mkAddr 41) = Outcome.panicked
    ∧ query_canary_blob clientPanics (mkAddr 41) = Outcome.panicked :=
  ⟨rfl, rfl, rfl⟩

/-- Claim C8: when decoding a Bech32 secret key and building a keystore from
it succeeds, the derived address is uniquely determined by the input (any
other successful run yields the same address), it agrees with the address
obtained by parsing and deriving directly, and exporting the imported key
pair from the keystore returns a pair whose derived address is again the
same address. -/
theorem C8_key_roundtrip (prim : SuiCrypto) (bech32_key : String) (ks : Keystore)
    (address : SuiAddress)
    (h : create_keystore_from_key prim bech32_key = .ok (ks, address)) :
    (∀ ks2 addr2, create_keystore_from_key prim bech32_key = .ok (ks2, addr2) →
        addr2 = address)
    ∧ (∃ parsed, parse_bech32_private_key prim bech32_key = .ok parsed
        ∧ to_address prim parsed = .ok address)
    ∧ (∃ keypair, keystore_export ks address = some keypair
        ∧ prim.public_address keypair = address) := by
  refine ⟨?_, ?_, ?_⟩
  · intro ks2 addr2 h2
    rw [h] at h2
    simp only [Except.ok.injEq, Prod.mk.injEq] at h2
    exact h2.2.symm
  · unfold create_keystore_from_key at h
    split at h
    · exact Except.noConfusion h
    · rename_i parsed hparse
      split at h
      · exact Except.noConfusion h
      · rename_i addr0 haddr
        split at h
        · exact Except.noConfusion h
        · rename_i keypair hkp
          simp only [keystore_import] at h
          simp only [Except.ok.injEq, Prod.mk.injEq] at h
          refine ⟨parsed, hparse, ?_⟩
          rw [haddr, h.2]
  · unfold create_keystore_from_key at h
    split at h
    · exact Except.noConfusion h
    · rename_i parsed hparse
      split at h
      · exact Except.noConfusion h
      · rename_i addr0 haddr
        split at h
        · exact Except.noConfusion h
        · rename_i keypair hkp
          simp only [keystore_import] at h
          simp only [Except.ok.injEq, Prod.mk.injEq] at h
          simp only [to_address, hkp] at haddr
          simp only [Except.ok.injEq] at haddr
          refine ⟨keypair, ?_, ?_⟩
          · rw [← h.1]
            simp [keystore_export, ← h.2, ← haddr]
          · rw [haddr, h.2]

/-- Claim C8 (witness): the round trip evaluated with a concrete
deterministic crypto capability and a concrete key string. -/
theorem C8_witness :
    (∀ ks2 addr2, create_keystore_from_key primTest "suiprivkey1qtest"
        = Except.ok (ks2, addr2) → addr2 = List.replicate 32 7)
    ∧ (∃ parsed, parse_bech32_private_key primTest "suiprivkey1qtest" = Except.ok parsed
        ∧ to_address primTest parsed = Except.ok (List.replicate 32 7))
    ∧ (∃ keypair, keystore_export
          [(List.replicate 32 7,
            { scheme := SignatureScheme.ED25519, secret := List.replicate 32 7 })]
          (List.replicate 32 7) = some keypair
        ∧ primTest.public_address keypair = List.replicate 32 7) :=
  C8_key_roundtrip primTest "suiprivkey1qtest"
    [(List.replicate 32 7,
      { scheme := SignatureScheme.ED25519, secret := List.replicate 32 7 })]
    (List.replicate 32 7) rfl

/-- Claim C9: `join_registry` is completely insensitive to the requested
`payment_amount` -- for identical remote state and other inputs, two calls
with different amounts are one and the same computation, so whatever is
constructed and submitted is identical.  (The parameter is never read by the
source.) -/
theorem C9_payment_amount_ignored (client : SuiClient) (signer : SuiAddress)
    (registry_id : ObjectID) (domain : List Nat) (amount1 amount2 : Nat) :
    join_registry client signer registry_id domain amount1
      = join_registry client signer registry_id domain amount2 := rfl

/-- Claim C10: queuing a native SUI transfer never fails locally: for every
recipient and every amount `transfer_sui` returns success, appending the
transfer to the operation queue -- its error branch is unreachable. -/
theorem C10_transfer_sui_total (b : CanaryTransactionBuilder) (recipient : SuiAddress)
    (amount : Nat) :
    transfer_sui b recipient amount
      = Except.ok { b with builder := b.builder ++ [Command.TransferSui recipient (some amount)] } :=
  rfl
